import Mathlib

/-!
Shallow embedding of the Vatom Spaces Rapier physics plugin
(RapierPhysicsPlugin and PhysicsComponent), together with theorems
checking the natural-language specification against the code.

Coordinates and velocities are modelled as rationals (the code only
copies them around, no floating-point arithmetic is relevant to the
properties below).  Wall-clock timestamps and handles are naturals.
JavaScript truthiness of numeric and string fields is modelled
explicitly by the helpers below.
-/

namespace RapierPhysics

/-- A 3-component vector, as used for positions and velocities. -/
structure Vec3 where
  x : ℚ
  y : ℚ
  z : ℚ
  deriving DecidableEq

/-- A quaternion, as used for rotations. -/
structure Quat where
  x : ℚ
  y : ℚ
  z : ℚ
  w : ℚ
  deriving DecidableEq

/-- The kind of rigid body descriptor constructed by `createPhysics`:
`RAPIER.RigidBodyDesc.fixed()`, `.dynamic()` or `.kinematicPositionBased()`. -/
inductive BodyKind where
  | fixed
  | dynamic
  | kinematicPositionBased
  deriving DecidableEq

/-- A rigid body descriptor, as assembled by `createPhysics` before
`world.createRigidBody` is invoked. -/
structure RigidBodyDesc where
  kind : BodyKind
  additionalMass : Option ℚ
  translation : Vec3
  rotation : Option Quat
  rotationsLocked : Bool
  deriving DecidableEq

/-- Runtime state of a created rigid body (the part of the Rapier body this
plugin reads and writes: transform, velocities and sleep state). -/
structure RigidBody where
  handle : ℕ
  kind : BodyKind
  translation : Vec3
  rotation : Quat
  angvel : Vec3
  linvel : Vec3
  sleeping : Bool
  deriving DecidableEq

/-- A collider descriptor (`RAPIER.ColliderDesc.*`). -/
inductive ColliderDesc where
  | ball (radius : ℚ)
  | cuboid (hx hy hz : ℚ)
  | cylinder (halfHeight radius : ℚ)
  | convexHull (vertices : List ℚ)
  | trimesh (vertices : List ℚ) (indices : List ℕ)
  deriving DecidableEq

/-- A created collider; `activeEvents` records whether
`setActiveEvents(COLLISION_EVENTS)` has been called on it. -/
structure Collider where
  handle : ℕ
  desc : ColliderDesc
  activeEvents : Bool
  deriving DecidableEq

/-- The portion of the Rapier world this plugin manages: the set of rigid
body handles currently alive, plus fresh-handle allocation counters. -/
structure World where
  nextBodyHandle : ℕ
  bodies : List ℕ
  nextColliderHandle : ℕ
  deriving DecidableEq

/-- `world.createRigidBody(desc)`: allocates a fresh handle and registers
the new body. -/
def World.createRigidBody (w : World) (desc : RigidBodyDesc) : RigidBody × World :=
  ({ handle := w.nextBodyHandle
     kind := desc.kind
     translation := desc.translation
     rotation := desc.rotation.getD ⟨0, 0, 0, 1⟩
     angvel := ⟨0, 0, 0⟩
     linvel := ⟨0, 0, 0⟩
     sleeping := false },
   { w with
     nextBodyHandle := w.nextBodyHandle + 1
     bodies := w.nextBodyHandle :: w.bodies })

/-- `world.removeRigidBody(body)`: deregisters the handle of the body. -/
def World.removeRigidBody (w : World) (h : ℕ) : World :=
  { w with bodies := w.bodies.filter (fun h2 => h2 != h) }

/-- `world.createCollider(desc, body)`: allocates a fresh collider handle.
Colliders are returned to (and tracked by) the owning component. -/
def World.createCollider (w : World) (desc : ColliderDesc) : Collider × World :=
  ({ handle := w.nextColliderHandle, desc := desc, activeEvents := false },
   { w with nextColliderHandle := w.nextColliderHandle + 1 })

/-- A Remote Update Message, `{action, inst, obj, counter, pos, quat,
angvel, linvel}`, as sent by `sendUpdate` and consumed by `onMessage` /
`onRemoteUpdateReceived`. -/
structure UpdateMessage where
  action : String
  inst : String
  obj : String
  counter : ℕ
  pos : Vec3
  quat : Quat
  angvel : Vec3
  linvel : Vec3
  deriving DecidableEq

/-- Per-object state of a `PhysicsComponent` instance. -/
structure PhysicsComponent where
  objectID : String
  body : Option RigidBody
  colliders : List Collider
  mode : String
  type : String
  mass : ℚ
  disableRotation : Bool
  bounceOnClick : Bool
  synchronized : Bool
  syncCounter : ℕ
  sendUpdateNextFrame : Bool
  lastUpdateSent : Option ℕ
  deriving DecidableEq

/-- The editor settings read through `this.getField(...)` in
`createPhysics`.  `none` models an absent/undefined field; for `mass` it
also models a `NaN` result of `parseFloat`. -/
structure Settings where
  enabled : Bool
  mode : Option String
  type : Option String
  synchronized : Bool
  mass : Option ℚ
  disableRotation : Bool
  clickBounce : Bool
  deriving DecidableEq

/-- The object fields read through `this.fields.*` in `createPhysics`. -/
structure Fields where
  parent : Option String
  name : String
  x : ℚ
  y : ℚ
  height : Option ℚ
  quatX : Option ℚ
  quatY : Option ℚ
  quatZ : Option ℚ
  quatW : Option ℚ
  scale : Option ℚ
  scale_x : Option ℚ
  scale_y : Option ℚ
  scale_z : Option ℚ
  type : Option String
  deriving DecidableEq

/-- One sub-mesh returned by `this.plugin.objects.getVertices(...)`. -/
structure MeshData where
  vertices : List ℚ
  indices : List ℕ
  deriving DecidableEq

/-- JavaScript `v || d` on a numeric field: absent or zero falls back to
the default. -/
def jsOrQ : Option ℚ → ℚ → ℚ
  | some v, d => if v = 0 then d else v
  | none, d => d

/-- JavaScript `v || d` on a string field: absent or empty falls back to
the default. -/
def jsOrS : Option String → String → String
  | some v, d => if v = "" then d else v
  | none, d => d

/-- JavaScript truthiness of a numeric field: present and nonzero. -/
def truthyQ : Option ℚ → Bool
  | some v => v != 0
  | none => false

/-- `onRemoteUpdateReceived(data)`: reject if the object has no body, is
not synchronized, carries a stale counter, or is not Dynamic; otherwise
adopt the message counter, overwrite transform and velocities, and wake
the body. -/
def PhysicsComponent.onRemoteUpdateReceived (s : PhysicsComponent)
    (data : UpdateMessage) : PhysicsComponent :=
  match s.body with
  | none => s
  | some b =>
    if s.synchronized = false then s
    else if data.counter < s.syncCounter then s
    else if s.mode ≠ "Dynamic" then s
    else
      { s with
        syncCounter := data.counter
        body := some { b with
          translation := data.pos
          rotation := data.quat
          angvel := data.angvel
          linvel := data.linvel
          sleeping := false } }

/-- Sample body used for concrete witnesses. -/
def sampleBody : RigidBody :=
  { handle := 0
    kind := .dynamic
    translation := ⟨0, 0, 0⟩
    rotation := ⟨0, 0, 0, 1⟩
    angvel := ⟨0, 0, 0⟩
    linvel := ⟨0, 0, 0⟩
    sleeping := true }

/-- Sample synchronized Dynamic component used for concrete witnesses. -/
def sampleComp : PhysicsComponent :=
  { objectID := "obj1"
    body := some sampleBody
    colliders := []
    mode := "Dynamic"
    type := "Sphere"
    mass := 1
    disableRotation := false
    bounceOnClick := false
    synchronized := true
    syncCounter := 3
    sendUpdateNextFrame := false
    lastUpdateSent := none }

/-- Sample remote update message at the same counter as `sampleComp`. -/
def sampleMsg : UpdateMessage :=
  { action := "update"
    inst := "remote:1"
    obj := "obj1"
    counter := 3
    pos := ⟨1, 2, 3⟩
    quat := ⟨0, 0, 0, 1⟩
    angvel := ⟨0, 1, 0⟩
    linvel := ⟨1, 0, 0⟩ }

/-- Sample message whose counter is below `sampleComp.syncCounter`. -/
def staleMsg : UpdateMessage :=
  { sampleMsg with counter := 2 }

/-- C1: for an active, synchronized, Dynamic object, a remote update whose
counter is at least the local sync counter (equal accepted) is applied:
the sync counter is set to the message counter, translation, rotation,
angular and linear velocity are overwritten with the message payload, and
the body is woken. -/
theorem onRemoteUpdate_accepts (s : PhysicsComponent) (b : RigidBody)
    (data : UpdateMessage) (hb : s.body = some b) (hs : s.synchronized = true)
    (hm : s.mode = "Dynamic") (hc : s.syncCounter ≤ data.counter) :
    s.onRemoteUpdateReceived data =
      { s with
        syncCounter := data.counter
        body := some { b with
          translation := data.pos
          rotation := data.quat
          angvel := data.angvel
          linvel := data.linvel
          sleeping := false } } := by
  unfold PhysicsComponent.onRemoteUpdateReceived
  rw [hb]
  simp [hs, hm, Nat.not_lt.mpr hc]

/-- Witness for C1 at a concrete component and message (equal counters). -/
theorem onRemoteUpdate_accepts_witness :
    sampleComp.onRemoteUpdateReceived sampleMsg =
      { sampleComp with
        syncCounter := 3
        body := some { sampleBody with
          translation := ⟨1, 2, 3⟩
          rotation := ⟨0, 0, 0, 1⟩
          angvel := ⟨0, 1, 0⟩
          linvel := ⟨1, 0, 0⟩
          sleeping := false } } :=
  onRemoteUpdate_accepts sampleComp sampleBody sampleMsg rfl rfl rfl
    (by decide)

/-- C2: a remote update with a stale counter is rejected with no state
change at all; likewise when the object has no body, is not synchronized,
or is not Dynamic. -/
theorem onRemoteUpdate_rejects (s : PhysicsComponent) (data : UpdateMessage)
    (h : data.counter < s.syncCounter ∨ s.body = none ∨
      s.synchronized = false ∨ s.mode ≠ "Dynamic") :
    s.onRemoteUpdateReceived data = s := by
  unfold PhysicsComponent.onRemoteUpdateReceived
  cases hb : s.body with
  | none => rfl
  | some b =>
    rcases h with h | h | h | h
    · simp [h]
    · rw [hb] at h; exact absurd h (by simp)
    · simp [h]
    · simp [h]

/-- Witness for C2: a stale message (counter 2 against local counter 3)
leaves the concrete component unchanged. -/
theorem onRemoteUpdate_rejects_witness :
    sampleComp.onRemoteUpdateReceived staleMsg = sampleComp :=
  onRemoteUpdate_rejects sampleComp staleMsg (Or.inl (by decide))

/-- The rate-limit test `this.lastUpdateSent && now - this.lastUpdateSent
< 100` of `sendUpdate` (a timestamp of `0` is falsy in JavaScript;
subtraction of timestamps never goes below zero here, matching the
JavaScript comparison since a negative difference is also below 100). -/
def throttled (lastUpdateSent : Option ℕ) (now : ℕ) : Bool :=
  match lastUpdateSent with
  | some t => (t != 0) && (now - t < 100)
  | none => false

/-- `sendUpdate()`: stop when the object has no body, is not synchronized,
is not Dynamic, or a send happened less than 100 ms ago; otherwise record
the send time, clear the pending flag, increment the sync counter, and
emit a Remote Update Message carrying the new counter, the body transform
and both velocities, tagged with the plugin instance ID. -/
def PhysicsComponent.sendUpdate (s : PhysicsComponent) (inst : String)
    (now : ℕ) : PhysicsComponent × Option UpdateMessage :=
  match s.body with
  | none => (s, none)
  | some b =>
    if s.synchronized = false then (s, none)
    else if s.mode ≠ "Dynamic" then (s, none)
    else if throttled s.lastUpdateSent now then (s, none)
    else
      let s2 := { s with
        lastUpdateSent := some now
        sendUpdateNextFrame := false
        syncCounter := s.syncCounter + 1 }
      (s2, some {
        action := "update"
        inst := inst
        obj := s.objectID
        counter := s2.syncCounter
        pos := b.translation
        quat := b.rotation
        angvel := b.angvel
        linvel := b.linvel })

/-- `didCollideWithUser()`: defer a broadcast to the next frame. -/
def PhysicsComponent.didCollideWithUser (s : PhysicsComponent) :
    PhysicsComponent :=
  { s with sendUpdateNextFrame := true }

/-- Inversion helper: what must be true of the input when `sendUpdate`
actually emitted a message, and what the resulting state and message are. -/
theorem sendUpdate_send_inv (s s' : PhysicsComponent) (inst : String)
    (now : ℕ) (m : UpdateMessage)
    (h : s.sendUpdate inst now = (s', some m)) :
    ∃ b, s.body = some b ∧ s.synchronized = true ∧ s.mode = "Dynamic" ∧
      throttled s.lastUpdateSent now = false ∧
      s' = { s with
        lastUpdateSent := some now
        sendUpdateNextFrame := false
        syncCounter := s.syncCounter + 1 } ∧
      m = { action := "update", inst := inst, obj := s.objectID
            counter := s.syncCounter + 1, pos := b.translation
            quat := b.rotation, angvel := b.angvel, linvel := b.linvel } := by
  unfold PhysicsComponent.sendUpdate at h
  split at h
  · exact absurd h (by simp)
  · rename_i b hb
    split at h
    · exact absurd h (by simp)
    · split at h
      · exact absurd h (by simp)
      · split at h
        · exact absurd h (by simp)
        · rename_i hs hm ht
          simp only [Prod.mk.injEq, Option.some.injEq] at h
          refine ⟨b, hb, by simpa using hs, by simpa using hm,
            by simpa using ht, ?_, h.2.symm⟩
          rw [← h.1, hb]

/-- Inversion helper: when `sendUpdate` did not emit a message, the
component state is entirely unchanged. -/
theorem sendUpdate_none_inv (s s' : PhysicsComponent) (inst : String)
    (now : ℕ) (h : s.sendUpdate inst now = (s', none)) : s' = s := by
  unfold PhysicsComponent.sendUpdate at h
  split at h
  · simp only [Prod.mk.injEq] at h; exact h.1.symm
  · split at h
    · simp only [Prod.mk.injEq] at h; exact h.1.symm
    · split at h
      · simp only [Prod.mk.injEq] at h; exact h.1.symm
      · split at h
        · simp only [Prod.mk.injEq] at h; exact h.1.symm
        · exact absurd h (by simp)

/-- Helper: a failed precondition short-circuits `sendUpdate` with no
message and no state change. -/
theorem sendUpdate_precondition_fail (s : PhysicsComponent) (inst : String)
    (now : ℕ)
    (h : s.body = none ∨ s.synchronized = false ∨ s.mode ≠ "Dynamic") :
    s.sendUpdate inst now = (s, none) := by
  unfold PhysicsComponent.sendUpdate
  cases hb : s.body with
  | none => rfl
  | some b =>
    rcases h with h | h | h
    · rw [hb] at h; exact absurd h (by simp)
    · simp [h]
    · simp [h]

/-- C4: after a send at time `t0`, a second broadcast request (the
pending flag set by `didCollideWithUser`) within 100 ms of `t0` emits
nothing and leaves the state — including the pending flag — untouched,
while a tick at or after `t0 + 100` does emit a message. -/
theorem sendUpdate_rate_limit (s s1 : PhysicsComponent) (m : UpdateMessage)
    (inst : String) (t0 t1 t2 : ℕ)
    (hsend : s.sendUpdate inst t0 = (s1, some m)) (ht0 : 0 < t0)
    (hlt : t1 - t0 < 100) (hge : 100 ≤ t2 - t0) :
    s1.didCollideWithUser.sendUpdate inst t1 = (s1.didCollideWithUser, none) ∧
    s1.didCollideWithUser.sendUpdateNextFrame = true ∧
    (s1.didCollideWithUser.sendUpdate inst t2).2.isSome = true := by
  obtain ⟨b, hb, hs, hm, -, hs1, -⟩ := sendUpdate_send_inv s s1 inst t0 m hsend
  subst hs1
  refine ⟨?_, rfl, ?_⟩
  · unfold PhysicsComponent.sendUpdate PhysicsComponent.didCollideWithUser
    simp [hb, hs, hm, throttled, Nat.pos_iff_ne_zero.mp ht0, hlt]
  · unfold PhysicsComponent.sendUpdate PhysicsComponent.didCollideWithUser
    simp [hb, hs, hm, throttled, Nat.not_lt.mpr hge]

/-- The component state after `sampleComp.sendUpdate "i:1" 1000`. -/
def sentComp : PhysicsComponent :=
  { sampleComp with
    lastUpdateSent := some 1000
    sendUpdateNextFrame := false
    syncCounter := 4 }

/-- The message emitted by `sampleComp.sendUpdate "i:1" 1000`. -/
def sentMsg : UpdateMessage :=
  { action := "update"
    inst := "i:1"
    obj := "obj1"
    counter := 4
    pos := ⟨0, 0, 0⟩
    quat := ⟨0, 0, 0, 1⟩
    angvel := ⟨0, 0, 0⟩
    linvel := ⟨0, 0, 0⟩ }

/-- Witness for C4: a concrete send at t=1000, a second request at t=1050
(no message, flag kept), and a successful send at t=1100. -/
theorem sendUpdate_rate_limit_witness :
    sentComp.didCollideWithUser.sendUpdate "i:1" 1050 =
      (sentComp.didCollideWithUser, none) ∧
    sentComp.didCollideWithUser.sendUpdateNextFrame = true ∧
    (sentComp.didCollideWithUser.sendUpdate "i:1" 1100).2.isSome = true :=
  sendUpdate_rate_limit sampleComp sentComp sentMsg "i:1" 1000 1050 1100 rfl
    (by decide) (by decide) (by decide)

/-- C5: when the body is present, the object is synchronized and Dynamic
and the rate limit allows it, `sendUpdate` increments the sync counter,
clears the pending flag, and emits a Remote Update Message carrying the
new counter, the serialized transform and velocities, and the instance
tag; when the body is absent, synchronization is off, or the mode is not
Dynamic, it emits nothing and leaves the state (in particular the sync
counter) unchanged. -/
theorem sendUpdate_spec (s s2 : PhysicsComponent) (b : RigidBody)
    (inst : String) (now t : ℕ)
    (hb : s.body = some b) (hs : s.synchronized = true)
    (hm : s.mode = "Dynamic") (hth : throttled s.lastUpdateSent now = false)
    (h2 : s2.body = none ∨ s2.synchronized = false ∨ s2.mode ≠ "Dynamic") :
    s.sendUpdate inst now =
      ({ s with
         lastUpdateSent := some now
         sendUpdateNextFrame := false
         syncCounter := s.syncCounter + 1 },
       some { action := "update", inst := inst, obj := s.objectID
              counter := s.syncCounter + 1, pos := b.translation
              quat := b.rotation, angvel := b.angvel, linvel := b.linvel }) ∧
    s2.sendUpdate inst t = (s2, none) := by
  refine ⟨?_, sendUpdate_precondition_fail s2 inst t h2⟩
  unfold PhysicsComponent.sendUpdate
  rw [hb]
  simp [hs, hm, hth]

/-- A component failing the synchronization precondition. -/
def unsyncComp : PhysicsComponent :=
  { sampleComp with synchronized := false }

/-- Witness for C5: a concrete send from `sampleComp` and a concrete
no-op on the unsynchronized variant. -/
theorem sendUpdate_spec_witness :
    sampleComp.sendUpdate "i:1" 1000 = (sentComp, some sentMsg) ∧
    unsyncComp.sendUpdate "i:1" 55 = (unsyncComp, none) :=
  sendUpdate_spec sampleComp unsyncComp sampleBody "i:1" 1000 55 rfl rfl rfl
    rfl (Or.inr (Or.inl rfl))

/-- An Active Collision record: the two collider handles involved, plus
the resolved objects (identified here by object ID), when found. -/
structure ActiveCollision where
  colliderHandle1 : ℕ
  colliderHandle2 : ℕ
  object1 : Option String
  object2 : Option String
  deriving DecidableEq

/-- Whether a handle pair of a record matches the pair of the event in either
order — the predicate of the `filter` used for collision-end events. -/
def ActiveCollision.matchesPair (c : ActiveCollision) (h1 h2 : ℕ) : Bool :=
  (c.colliderHandle1 == h1 && c.colliderHandle2 == h2) ||
  (c.colliderHandle1 == h2 && c.colliderHandle2 == h1)

/-- Processing a collision-end event `(h1, h2)` inside
`drainCollisionEvents`: keep exactly the records that do not match the
pair in either order. -/
def removeEndedCollisions (cols : List ActiveCollision) (h1 h2 : ℕ) :
    List ActiveCollision :=
  cols.filter (fun c => !(c.matchesPair h1 h2))

/-- C6: a collision-end event removes exactly the Active Collision
records whose handle pair equals the pair of the event in either order;
every other record — including ones sharing exactly one handle — is
retained, with multiplicity. -/
theorem collisionEnd_removes_exactly (cols : List ActiveCollision)
    (h1 h2 : ℕ) (c : ActiveCollision) :
    (c ∈ removeEndedCollisions cols h1 h2 ↔
      c ∈ cols ∧ ¬((c.colliderHandle1 = h1 ∧ c.colliderHandle2 = h2) ∨
        (c.colliderHandle1 = h2 ∧ c.colliderHandle2 = h1))) ∧
    (removeEndedCollisions cols h1 h2).count c =
      (if (c.colliderHandle1 = h1 ∧ c.colliderHandle2 = h2) ∨
          (c.colliderHandle1 = h2 ∧ c.colliderHandle2 = h1)
       then 0 else cols.count c) := by
  constructor
  · simp only [removeEndedCollisions, List.mem_filter,
      ActiveCollision.matchesPair, Bool.not_eq_true', Bool.or_eq_false_iff,
      Bool.and_eq_false_iff, beq_eq_false_iff_ne, not_or]
    constructor
    · rintro ⟨hc, hp⟩
      exact ⟨hc, fun h => (hp.1.elim (fun a => a h.1) fun a => a h.2),
        fun h => (hp.2.elim (fun a => a h.1) fun a => a h.2)⟩
    · rintro ⟨hc, hp1, hp2⟩
      refine ⟨hc, ?_, ?_⟩
      · by_cases e : c.colliderHandle1 = h1
        · exact Or.inr fun e2 => hp1 ⟨e, e2⟩
        · exact Or.inl e
      · by_cases e : c.colliderHandle1 = h2
        · exact Or.inr fun e2 => hp2 ⟨e, e2⟩
        · exact Or.inl e
  · by_cases hm : (c.colliderHandle1 = h1 ∧ c.colliderHandle2 = h2) ∨
      (c.colliderHandle1 = h2 ∧ c.colliderHandle2 = h1)
    · rw [if_pos hm]
      refine List.count_eq_zero.mpr ?_
      simp only [removeEndedCollisions, List.mem_filter,
        ActiveCollision.matchesPair]
      rintro ⟨-, hpred⟩
      simp only [Bool.not_eq_true', Bool.or_eq_false_iff,
        Bool.and_eq_false_iff, beq_eq_false_iff_ne] at hpred
      rcases hm with ⟨e1, e2⟩ | ⟨e1, e2⟩
      · rcases hpred.1 with h | h <;> exact h (by assumption)
      · rcases hpred.2 with h | h <;> exact h (by assumption)
    · rw [if_neg hm]
      refine List.count_filter ?_
      simp only [ActiveCollision.matchesPair, Bool.not_eq_true',
        Bool.or_eq_false_iff, Bool.and_eq_false_iff, beq_eq_false_iff_ne]
      push_neg at hm
      constructor
      · by_cases e1 : c.colliderHandle1 = h1
        · exact Or.inr (hm.1 e1)
        · exact Or.inl e1
      · by_cases e2 : c.colliderHandle1 = h2
        · exact Or.inr (hm.2 e2)
        · exact Or.inl e2

/-- `removePhysics()`: a no-op when no body is registered; otherwise
remove the rigid body from the world and clear the body and collider
references. -/
def PhysicsComponent.removePhysics (s : PhysicsComponent) (w : World) :
    PhysicsComponent × World :=
  match s.body with
  | none => (s, w)
  | some b =>
    ({ s with body := none, colliders := [] }, w.removeRigidBody b.handle)

/-- The configuration block of `createPhysics`: read the editor fields,
apply defaults and clamps, resolve the `Automatic` shape type, and reset
the sync counter to 0. -/
def resolveType (type0 : String) (fieldsType : Option String)
    (mode : String) : String :=
  if type0 = "Automatic" ∧ fieldsType = some "cylinder" then "Cylinder"
  else if type0 = "Automatic" ∧ fieldsType = some "cube" then "Cube"
  else if type0 = "Automatic" ∧ fieldsType = some "sphere" then "Sphere"
  else if type0 = "Automatic" ∧ mode = "Static" then "Trimesh"
  else if type0 = "Automatic" then "Convex Hull"
  else type0

/-- The property assignments of `createPhysics` (`this.mode = ...`
through `this.syncCounter = 0`). -/
def PhysicsComponent.configure (s : PhysicsComponent) (settings : Settings)
    (fields : Fields) : PhysicsComponent :=
  let mode := jsOrS settings.mode "Static"
  let type0 := jsOrS settings.type "Automatic"
  { s with
    mode := mode
    type := resolveType type0 fields.type mode
    synchronized := settings.synchronized
    mass := max (1 / 100 : ℚ) (jsOrQ settings.mass 1)
    disableRotation := settings.disableRotation
    bounceOnClick := settings.clickBounce
    syncCounter := 0 }

/-- The rigid-body-descriptor block of `createPhysics`: `Static` maps to
a fixed descriptor, `Dynamic` to a dynamic descriptor with the additional
mass, anything else is an unknown mode (`none`); the initial transform is
taken from the object fields, rotation is set only if some quaternion
component is truthy, and rotations are locked on request. -/
def mkBodyDesc (mode : String) (mass : ℚ) (fields : Fields)
    (locked : Bool) : Option RigidBodyDesc :=
  let kind : Option BodyKind :=
    if mode = "Static" then some .fixed
    else if mode = "Dynamic" then some .dynamic
    else none
  kind.map fun k =>
    { kind := k
      additionalMass := if mode = "Dynamic" then some mass else none
      translation := ⟨fields.x, jsOrQ fields.height 0, fields.y⟩
      rotation :=
        if truthyQ fields.quatX || truthyQ fields.quatY ||
            truthyQ fields.quatZ || truthyQ fields.quatW then
          some ⟨jsOrQ fields.quatX 0, jsOrQ fields.quatY 0,
            jsOrQ fields.quatZ 0, jsOrQ fields.quatW 0⟩
        else none
      rotationsLocked := locked }

/-- Per-axis scaling of a flat vertex buffer (stride 3), as done before
hull/trimesh construction. -/
def scaleVertices (sx sy sz : ℚ) (vs : List ℚ) : List ℚ :=
  vs.enum.map fun p =>
    p.2 * (if p.1 % 3 = 0 then sx else if p.1 % 3 = 1 then sy else sz)

/-- The per-sub-mesh collider creation loop of the hull/trimesh cases. -/
def buildMeshColliders (mkDesc : MeshData → ColliderDesc) :
    List MeshData → World → List Collider × World
  | [], w => ([], w)
  | m :: rest, w =>
    let r := w.createCollider (mkDesc m)
    let rs := buildMeshColliders mkDesc rest r.2
    (r.1 :: rs.1, rs.2)

/-- The shape-collider block of `createPhysics`: dispatch on the resolved
shape type; an unrecognised type logs a warning and falls back to a
`cuboid(1, 1, 1)` collider. -/
def buildColliders (ty : String) (fields : Fields)
    (meshes : List MeshData) (w : World) :
    List Collider × World × List String :=
  if ty = "Sphere" then
    let sizeUniform := jsOrQ fields.scale 1
    let sizeX := (1 / 2 : ℚ) * jsOrQ fields.scale_x 1 * sizeUniform
    let sizeY := (1 / 2 : ℚ) * jsOrQ fields.scale_y 1 * sizeUniform
    let sizeZ := (1 / 2 : ℚ) * jsOrQ fields.scale_z 1 * sizeUniform
    let radius := max sizeX (max sizeY sizeZ)
    let r := w.createCollider (.ball radius)
    ([r.1], r.2, [])
  else if ty = "Cube" then
    let sizeUniform := jsOrQ fields.scale 1
    let sizeX := 1 * jsOrQ fields.scale_x 1 * sizeUniform
    let sizeY := 1 * jsOrQ fields.scale_y 1 * sizeUniform
    let sizeZ := 1 * jsOrQ fields.scale_z 1 * sizeUniform
    let r := w.createCollider (.cuboid (sizeX / 2) (sizeY / 2) (sizeZ / 2))
    ([r.1], r.2, [])
  else if ty = "Cylinder" then
    let sizeUniform := jsOrQ fields.scale 1
    let sizeX := (1 / 2 : ℚ) * jsOrQ fields.scale_x 1 * sizeUniform
    let sizeY := 1 * jsOrQ fields.scale_y 1 * sizeUniform
    let sizeZ := (1 / 2 : ℚ) * jsOrQ fields.scale_z 1 * sizeUniform
    let radius := max sizeX sizeZ
    let r := w.createCollider (.cylinder (sizeY / 2) radius)
    ([r.1], r.2, [])
  else if ty = "Convex Hull" then
    let scaleUniform := jsOrQ fields.scale 1
    let sx := jsOrQ fields.scale_x 1 * scaleUniform
    let sy := jsOrQ fields.scale_y 1 * scaleUniform
    let sz := jsOrQ fields.scale_z 1 * scaleUniform
    let r := buildMeshColliders
      (fun m => .convexHull (scaleVertices sx sy sz m.vertices)) meshes w
    (r.1, r.2, [])
  else if ty = "Trimesh" then
    let scaleUniform := jsOrQ fields.scale 1
    let sx := jsOrQ fields.scale_x 1 * scaleUniform
    let sy := jsOrQ fields.scale_y 1 * scaleUniform
    let sz := jsOrQ fields.scale_z 1 * scaleUniform
    let r := buildMeshColliders
      (fun m => .trimesh (scaleVertices sx sy sz m.vertices) m.indices)
      meshes w
    (r.1, r.2, [])
  else
    let r := w.createCollider (.cuboid 1 1 1)
    ([r.1], r.2, ["Unknown shape type"])

/-- `createPhysics()`: tear down any previous physics, stop when physics
is disabled or the object is parented, read and clamp the configuration
(resetting the sync counter), construct the body descriptor (warning and
leaving the object inactive on an unknown mode), create the rigid body
and the shape colliders, enable collision events on every collider, and
install the new body and collider list.  The third result component
collects the warnings logged along the way; `meshes` stands for the
resolved result of the asynchronous `getVertices` call. -/
def PhysicsComponent.createPhysics (s : PhysicsComponent) (w : World)
    (settings : Settings) (fields : Fields) (meshes : List MeshData) :
    PhysicsComponent × World × List String :=
  let r0 := s.removePhysics w
  let s1 := r0.1
  let w1 := r0.2
  if settings.enabled = false then (s1, w1, [])
  else if fields.parent.isSome then
    (s1, w1, ["parented objects not supported"])
  else
    let s2 := s1.configure settings fields
    match mkBodyDesc s2.mode s2.mass fields s2.disableRotation with
    | none => (s2, w1, ["Unknown mode"])
    | some desc =>
      let rb := w1.createRigidBody desc
      let bc := buildColliders s2.type fields meshes rb.2
      let cols := bc.1.map fun c => { c with activeEvents := true }
      ({ s2 with body := some rb.1, colliders := cols }, bc.2.1, bc.2.2)

/-- A world holding exactly the sample body (handle 0). -/
def sampleWorld : World :=
  { nextBodyHandle := 1, bodies := [0], nextColliderHandle := 0 }

/-- Sample object fields: unparented, with no explicit rotation or
scale. -/
def sampleFields : Fields :=
  { parent := none
    name := "crate"
    x := 0
    y := 0
    height := some 5
    quatX := none
    quatY := none
    quatZ := none
    quatW := none
    scale := none
    scale_x := none
    scale_y := none
    scale_z := none
    type := none }

/-- Editor settings with physics disabled. -/
def disabledSettings : Settings :=
  { enabled := false
    mode := some "Dynamic"
    type := some "Sphere"
    synchronized := true
    mass := some 1
    disableRotation := false
    clickBounce := false }

/-- The same settings with physics enabled. -/
def enabledSettings : Settings :=
  { disabledSettings with enabled := true }

/-- Enabled settings whose mode is the (schema-registered) `Kinematic`. -/
def kinematicSettings : Settings :=
  { enabledSettings with mode := some "Kinematic" }

/-- A component that has no physics built yet. -/
def freshComp : PhysicsComponent :=
  { objectID := "obj2"
    body := none
    colliders := []
    mode := "Static"
    type := "Sphere"
    mass := 1
    disableRotation := false
    bounceOnClick := false
    synchronized := false
    syncCounter := 0
    sendUpdateNextFrame := false
    lastUpdateSent := none }

/-- `sampleComp` with a nonzero sync counter, for rebuild experiments. -/
def comp5 : PhysicsComponent :=
  { sampleComp with syncCounter := 5 }

/-- Counterexample for C3 as stated: calling `createPhysics` on a
disabled object returns before the `syncCounter = 0` assignment, so a
sync counter of 5 survives the call. -/
theorem createPhysics_disabled_keeps_counter :
    (comp5.createPhysics sampleWorld disabledSettings sampleFields
      []).1.syncCounter = 5 ∧ (5 : ℕ) ≠ 0 :=
  ⟨rfl, by decide⟩

/-- C3 (amended): whenever the object is enabled and unparented — i.e.
whenever `createPhysics` actually proceeds past its early returns — the
sync counter is reset to 0, whatever its previous value, even if the mode
or shape later turns out to be unknown. -/
theorem createPhysics_resets_syncCounter (s : PhysicsComponent) (w : World)
    (settings : Settings) (fields : Fields) (meshes : List MeshData)
    (hen : settings.enabled = true) (hp : fields.parent = none) :
    (s.createPhysics w settings fields meshes).1.syncCounter = 0 := by
  unfold PhysicsComponent.createPhysics
  simp only [hen, hp, Option.isSome_none]
  rw [if_neg (by simp), if_neg (by simp)]
  split <;> rfl

/-- Witness for the amended C3: the concrete component with counter 5 is
reset to 0 by an enabled, unparented rebuild. -/
theorem createPhysics_resets_syncCounter_witness :
    (comp5.createPhysics sampleWorld enabledSettings sampleFields
      []).1.syncCounter = 0 :=
  createPhysics_resets_syncCounter comp5 sampleWorld enabledSettings
    sampleFields [] rfl rfl

/-- C7 (code bug): `Kinematic` is a registered mode value in the
settings schema of the component, yet `createPhysics` only recognises
`Static` and `Dynamic`; an enabled, unparented object in `Kinematic`
mode falls into the unknown-mode branch: it is warned about and left
inactive (no body, no colliders) instead of receiving a kinematic body
descriptor. -/
theorem createPhysics_kinematic_mode_inactive :
    (freshComp.createPhysics sampleWorld kinematicSettings sampleFields
      []).1.body = none ∧
    (freshComp.createPhysics sampleWorld kinematicSettings sampleFields
      []).1.mode = "Kinematic" ∧
    (freshComp.createPhysics sampleWorld kinematicSettings sampleFields
      []).2.2 = ["Unknown mode"] :=
  ⟨rfl, rfl, rfl⟩

/-- Helper: an unrecognised shape type takes the fallback branch of the
shape dispatch: one `cuboid(1, 1, 1)` collider and a warning. -/
theorem buildColliders_unknown (ty : String) (fields : Fields)
    (meshes : List MeshData) (w : World)
    (h : ty ∉ (["Sphere", "Cube", "Cylinder", "Convex Hull",
      "Trimesh"] : List String)) :
    buildColliders ty fields meshes w =
      ([{ handle := w.nextColliderHandle, desc := .cuboid 1 1 1,
          activeEvents := false }],
       { w with nextColliderHandle := w.nextColliderHandle + 1 },
       ["Unknown shape type"]) := by
  simp only [List.mem_cons, List.not_mem_nil, or_false, not_or] at h
  obtain ⟨h1, h2, h3, h4, h5⟩ := h
  unfold buildColliders
  simp [h1, h2, h3, h4, h5, World.createCollider]

/-- Helper: `removePhysics` always leaves the component bodiless. -/
theorem removePhysics_body_none (s : PhysicsComponent) (w : World) :
    (s.removePhysics w).1.body = none := by
  unfold PhysicsComponent.removePhysics
  split
  · next heq => exact heq
  · rfl

/-- Helper: `removePhysics` never touches the body-handle allocator. -/
theorem removePhysics_nextBodyHandle (s : PhysicsComponent) (w : World) :
    (s.removePhysics w).2.nextBodyHandle = w.nextBodyHandle := by
  unfold PhysicsComponent.removePhysics
  split <;> rfl

/-- Helper: `removePhysics` never touches the collider-handle allocator. -/
theorem removePhysics_nextColliderHandle (s : PhysicsComponent)
    (w : World) :
    (s.removePhysics w).2.nextColliderHandle = w.nextColliderHandle := by
  unfold PhysicsComponent.removePhysics
  split <;> rfl

/-- Helper: `removePhysics` on a component with a body. -/
theorem removePhysics_some (s : PhysicsComponent) (w : World)
    (b : RigidBody) (h : s.body = some b) :
    s.removePhysics w =
      ({ s with body := none, colliders := [] },
       w.removeRigidBody b.handle) := by
  unfold PhysicsComponent.removePhysics
  rw [h]

/-- Helper: `removePhysics` on a bodiless component is a no-op. -/
theorem removePhysics_none (s : PhysicsComponent) (w : World)
    (h : s.body = none) : s.removePhysics w = (s, w) := by
  unfold PhysicsComponent.removePhysics
  rw [h]

/-- Helper: collider creation never touches the rigid-body side of the
world, over a whole sub-mesh loop. -/
theorem buildMeshColliders_world_inv (f : MeshData → ColliderDesc)
    (ms : List MeshData) (w : World) :
    (buildMeshColliders f ms w).2.bodies = w.bodies ∧
    (buildMeshColliders f ms w).2.nextBodyHandle = w.nextBodyHandle := by
  induction ms generalizing w with
  | nil => exact ⟨rfl, rfl⟩
  | cons m rest ih =>
    simpa [buildMeshColliders, World.createCollider] using
      ih { w with nextColliderHandle := w.nextColliderHandle + 1 }

/-- Helper: the shape dispatch never touches the rigid-body side of the
world. -/
theorem buildColliders_world_inv (ty : String) (fields : Fields)
    (meshes : List MeshData) (w : World) :
    (buildColliders ty fields meshes w).2.1.bodies = w.bodies ∧
    (buildColliders ty fields meshes w).2.1.nextBodyHandle =
      w.nextBodyHandle := by
  unfold buildColliders
  split_ifs <;>
    first
      | exact ⟨rfl, rfl⟩
      | exact buildMeshColliders_world_inv _ _ _

/-- Helper: `mkBodyDesc` on mode `Static` yields a fixed descriptor. -/
theorem mkBodyDesc_static (mass : ℚ) (fields : Fields) (locked : Bool) :
    mkBodyDesc "Static" mass fields locked = some
      { kind := .fixed
        additionalMass := none
        translation := ⟨fields.x, jsOrQ fields.height 0, fields.y⟩
        rotation :=
          if truthyQ fields.quatX || truthyQ fields.quatY ||
              truthyQ fields.quatZ || truthyQ fields.quatW then
            some ⟨jsOrQ fields.quatX 0, jsOrQ fields.quatY 0,
              jsOrQ fields.quatZ 0, jsOrQ fields.quatW 0⟩
          else none
        rotationsLocked := locked } := by
  unfold mkBodyDesc
  simp

/-- Helper: `mkBodyDesc` on mode `Dynamic` yields a dynamic descriptor
carrying the additional mass. -/
theorem mkBodyDesc_dynamic (mass : ℚ) (fields : Fields) (locked : Bool) :
    mkBodyDesc "Dynamic" mass fields locked = some
      { kind := .dynamic
        additionalMass := some mass
        translation := ⟨fields.x, jsOrQ fields.height 0, fields.y⟩
        rotation :=
          if truthyQ fields.quatX || truthyQ fields.quatY ||
              truthyQ fields.quatZ || truthyQ fields.quatW then
            some ⟨jsOrQ fields.quatX 0, jsOrQ fields.quatY 0,
              jsOrQ fields.quatZ 0, jsOrQ fields.quatW 0⟩
          else none
        rotationsLocked := locked } := by
  unfold mkBodyDesc
  simp

/-- Helper: the shape of a completed `createPhysics` run when the mode
check succeeds with descriptor `desc`. -/
theorem createPhysics_eq_some (s : PhysicsComponent) (w : World)
    (settings : Settings) (fields : Fields) (meshes : List MeshData)
    (desc : RigidBodyDesc)
    (hen : settings.enabled = true) (hp : fields.parent = none)
    (hdesc : mkBodyDesc (jsOrS settings.mode "Static")
      (max (1 / 100 : ℚ) (jsOrQ settings.mass 1)) fields
      settings.disableRotation = some desc) :
    s.createPhysics w settings fields meshes =
      ({ (s.removePhysics w).1.configure settings fields with
          body := some ((s.removePhysics w).2.createRigidBody desc).1
          colliders :=
            (buildColliders
              ((s.removePhysics w).1.configure settings fields).type fields
              meshes ((s.removePhysics w).2.createRigidBody desc).2).1.map
              fun c => { c with activeEvents := true } },
       (buildColliders
         ((s.removePhysics w).1.configure settings fields).type fields
         meshes ((s.removePhysics w).2.createRigidBody desc).2).2.1,
       (buildColliders
         ((s.removePhysics w).1.configure settings fields).type fields
         meshes ((s.removePhysics w).2.createRigidBody desc).2).2.2) := by
  unfold PhysicsComponent.createPhysics
  simp only [hen, hp, Option.isSome_none]
  rw [if_neg (by simp), if_neg (by simp)]
  split
  · next heq => exact absurd (hdesc.symm.trans heq) (by simp)
  · next desc2 heq =>
    have h2 : desc2 = desc := Option.some.inj (heq.symm.trans hdesc)
    subst h2
    rfl

/-- C8: with the object enabled, unparented and in a known mode, an
unrecognised resolved shape type does not fail the build: the component
ends up active, carrying exactly one fallback `cuboid(1, 1, 1)` collider
with collision events enabled, and the unknown-shape warning is logged. -/
theorem createPhysics_unknown_shape_fallback (s : PhysicsComponent)
    (w : World) (settings : Settings) (fields : Fields)
    (meshes : List MeshData)
    (hen : settings.enabled = true) (hp : fields.parent = none)
    (hmode : jsOrS settings.mode "Static" = "Static" ∨
      jsOrS settings.mode "Static" = "Dynamic")
    (hty : resolveType (jsOrS settings.type "Automatic") fields.type
        (jsOrS settings.mode "Static") ∉
      (["Sphere", "Cube", "Cylinder", "Convex Hull",
        "Trimesh"] : List String)) :
    (s.createPhysics w settings fields meshes).1.body.isSome = true ∧
    (s.createPhysics w settings fields meshes).1.colliders =
      [{ handle := w.nextColliderHandle, desc := .cuboid 1 1 1,
         activeEvents := true }] ∧
    "Unknown shape type" ∈ (s.createPhysics w settings fields meshes).2.2 := by
  obtain ⟨desc, hdesc⟩ : ∃ desc, mkBodyDesc (jsOrS settings.mode "Static")
      (max (1 / 100 : ℚ) (jsOrQ settings.mass 1)) fields
      settings.disableRotation = some desc := by
    rcases hmode with hm | hm <;> rw [hm]
    · exact ⟨_, mkBodyDesc_static _ fields _⟩
    · exact ⟨_, mkBodyDesc_dynamic _ fields _⟩
  rw [createPhysics_eq_some s w settings fields meshes desc hen hp hdesc]
  have hty2 : ((s.removePhysics w).1.configure settings fields).type ∉
      (["Sphere", "Cube", "Cylinder", "Convex Hull",
        "Trimesh"] : List String) := hty
  rw [buildColliders_unknown _ fields meshes _ hty2]
  refine ⟨rfl, ?_, by simp⟩
  simp [World.createRigidBody, removePhysics_nextColliderHandle]

/-- Enabled static settings with an unrecognised shape type. -/
def bananaSettings : Settings :=
  { enabledSettings with mode := some "Static", type := some "Banana" }

/-- Witness for C8 at a concrete unknown shape type. -/
theorem createPhysics_unknown_shape_fallback_witness :
    (freshComp.createPhysics sampleWorld bananaSettings sampleFields
      []).1.body.isSome = true ∧
    (freshComp.createPhysics sampleWorld bananaSettings sampleFields
      []).1.colliders =
      [{ handle := 0, desc := .cuboid 1 1 1, activeEvents := true }] ∧
    "Unknown shape type" ∈
      (freshComp.createPhysics sampleWorld bananaSettings sampleFields
        []).2.2 :=
  createPhysics_unknown_shape_fallback freshComp sampleWorld bananaSettings
    sampleFields [] rfl rfl (Or.inl rfl) (by decide)

/-- Helper: `createPhysics` on a disabled object stops right after the
teardown. -/
theorem createPhysics_eq_disabled (s : PhysicsComponent) (w : World)
    (settings : Settings) (fields : Fields) (meshes : List MeshData)
    (hen : settings.enabled = false) :
    s.createPhysics w settings fields meshes =
      ((s.removePhysics w).1, (s.removePhysics w).2, []) := by
  unfold PhysicsComponent.createPhysics
  simp [hen]

/-- Helper: `createPhysics` on a parented object stops right after the
teardown, logging a warning. -/
theorem createPhysics_eq_parented (s : PhysicsComponent) (w : World)
    (settings : Settings) (fields : Fields) (meshes : List MeshData)
    (hen : settings.enabled = true) (hp : fields.parent.isSome = true) :
    s.createPhysics w settings fields meshes =
      ((s.removePhysics w).1, (s.removePhysics w).2,
       ["parented objects not supported"]) := by
  unfold PhysicsComponent.createPhysics
  simp [hen, hp]

/-- Helper: `createPhysics` on an unknown mode stops after the
configuration block, logging a warning and creating no body. -/
theorem createPhysics_eq_unknown_mode (s : PhysicsComponent) (w : World)
    (settings : Settings) (fields : Fields) (meshes : List MeshData)
    (hen : settings.enabled = true) (hpn : fields.parent = none)
    (hmk : mkBodyDesc (jsOrS settings.mode "Static")
      (max (1 / 100 : ℚ) (jsOrQ settings.mass 1)) fields
      settings.disableRotation = none) :
    s.createPhysics w settings fields meshes =
      ((s.removePhysics w).1.configure settings fields,
       (s.removePhysics w).2, ["Unknown mode"]) := by
  unfold PhysicsComponent.createPhysics
  simp only [hen, hpn, Option.isSome_none]
  rw [if_neg (by simp), if_neg (by simp)]
  split
  · rfl
  · next desc2 heq => exact absurd (hmk.symm.trans heq) (by simp)

/-- Helper: after `createPhysics`, either the object is inactive and the
body set of the world is exactly what the initial teardown left, or a single
fresh body was created and registered. -/
theorem createPhysics_cases (s : PhysicsComponent) (w : World)
    (settings : Settings) (fields : Fields) (meshes : List MeshData) :
    ((s.createPhysics w settings fields meshes).1.body = none ∧
     (s.createPhysics w settings fields meshes).2.1.bodies =
       (s.removePhysics w).2.bodies) ∨
    ((s.createPhysics w settings fields meshes).1.body.map
        RigidBody.handle = some (s.removePhysics w).2.nextBodyHandle ∧
     (s.createPhysics w settings fields meshes).2.1.bodies =
       (s.removePhysics w).2.nextBodyHandle ::
         (s.removePhysics w).2.bodies) := by
  by_cases hen : settings.enabled = false
  · rw [createPhysics_eq_disabled s w settings fields meshes hen]
    exact Or.inl ⟨removePhysics_body_none s w, rfl⟩
  · have hen2 : settings.enabled = true := by
      revert hen; cases settings.enabled <;> simp
    by_cases hp : fields.parent.isSome = true
    · rw [createPhysics_eq_parented s w settings fields meshes hen2 hp]
      exact Or.inl ⟨removePhysics_body_none s w, rfl⟩
    · have hpn : fields.parent = none := by
        revert hp; cases fields.parent <;> simp
      cases hmk : mkBodyDesc (jsOrS settings.mode "Static")
          (max (1 / 100 : ℚ) (jsOrQ settings.mass 1)) fields
          settings.disableRotation with
      | none =>
        rw [createPhysics_eq_unknown_mode s w settings fields meshes hen2
          hpn hmk]
        exact Or.inl ⟨removePhysics_body_none s w, rfl⟩
      | some desc =>
        rw [createPhysics_eq_some s w settings fields meshes desc hen2
          hpn hmk]
        exact Or.inr ⟨rfl, (buildColliders_world_inv _ _ _ _).1⟩

/-- C9: `removePhysics` is idempotent and a no-op on a bodiless object;
after it, the body is gone and the collider list empty; and because
`createPhysics` tears down first and then creates at most one fresh
body, the handle of the previous body is no longer in the world after a
rebuild while the new body (when one was built) is registered under a
fresh handle — the object never owns two bodies at once. -/
theorem physics_lifecycle_single_body (s s0 : PhysicsComponent)
    (w w0 : World) (settings : Settings) (fields : Fields)
    (meshes : List MeshData) (b : RigidBody)
    (h0 : s0.body = none) (hb : s.body = some b)
    (hh : b.handle < w.nextBodyHandle) :
    s0.removePhysics w0 = (s0, w0) ∧
    (s.removePhysics w).1.removePhysics (s.removePhysics w).2 =
      s.removePhysics w ∧
    (s.removePhysics w).1.body = none ∧
    (s.removePhysics w).1.colliders = [] ∧
    b.handle ∉ (s.createPhysics w settings fields meshes).2.1.bodies ∧
    ((s.createPhysics w settings fields meshes).1.body.all fun b2 =>
        decide (b2.handle ∈
          (s.createPhysics w settings fields meshes).2.1.bodies) &&
        decide (w.nextBodyHandle ≤ b2.handle)) = true := by
  have hrem := removePhysics_some s w b hb
  have hnotmem : b.handle ∉ (w.removeRigidBody b.handle).bodies := by
    intro hmem
    have := (List.mem_filter.mp hmem).2
    simp at this
  refine ⟨removePhysics_none s0 w0 h0, ?_, removePhysics_body_none s w,
    ?_, ?_, ?_⟩
  · rw [hrem]
    exact removePhysics_none _ _ rfl
  · rw [hrem]
  · rcases createPhysics_cases s w settings fields meshes with
      ⟨-, hbod⟩ | ⟨-, hbod⟩
    · rw [hbod, hrem]
      exact hnotmem
    · rw [hbod, hrem]
      intro hmem
      rcases List.mem_cons.mp hmem with heq | hmem2
      · exact Nat.ne_of_lt hh heq
      · exact hnotmem hmem2
  · rcases createPhysics_cases s w settings fields meshes with
      ⟨hbody, -⟩ | ⟨hbody, hbod⟩
    · rw [hbody]
      rfl
    · cases hb2 : (s.createPhysics w settings fields meshes).1.body with
      | none =>
        rw [hb2] at hbody
        simp at hbody
      | some b2 =>
        rw [hb2] at hbody
        have hb2h : b2.handle = (s.removePhysics w).2.nextBodyHandle := by
          simpa using hbody
        have hn : (s.removePhysics w).2.nextBodyHandle = w.nextBodyHandle :=
          removePhysics_nextBodyHandle s w
        simp [hbod, hb2h, hn]

/-- Witness for C9 at the concrete sample component and world. -/
theorem physics_lifecycle_single_body_witness :
    freshComp.removePhysics sampleWorld = (freshComp, sampleWorld) ∧
    (sampleComp.removePhysics sampleWorld).1.removePhysics
      (sampleComp.removePhysics sampleWorld).2 =
      sampleComp.removePhysics sampleWorld ∧
    (sampleComp.removePhysics sampleWorld).1.body = none ∧
    (sampleComp.removePhysics sampleWorld).1.colliders = [] ∧
    sampleBody.handle ∉
      (sampleComp.createPhysics sampleWorld enabledSettings sampleFields
        []).2.1.bodies ∧
    ((sampleComp.createPhysics sampleWorld enabledSettings sampleFields
        []).1.body.all fun b2 =>
        decide (b2.handle ∈
          (sampleComp.createPhysics sampleWorld enabledSettings
            sampleFields []).2.1.bodies) &&
        decide (1 ≤ b2.handle)) = true :=
  physics_lifecycle_single_body sampleComp freshComp sampleWorld
    sampleWorld enabledSettings sampleFields [] sampleBody rfl rfl
    (by decide)

/-- Plugin-level state consumed by `onMessage`. -/
structure PluginState where
  instanceID : String
  numMessagesIn : ℕ
  numMessagesOut : ℕ
  physicsObjects : List PhysicsComponent
  deriving DecidableEq

/-- In-place mutation of the first list element with the given object ID
(the object the JavaScript `find` returned). -/
def updateFirst (objID : String) (f : PhysicsComponent → PhysicsComponent) :
    List PhysicsComponent → List PhysicsComponent
  | [] => []
  | o :: rest =>
    if o.objectID = objID then f o :: rest
    else o :: updateFirst objID f rest

/-- `onMessage(data)`: count the inbound message, discard self-originated
messages, dispatch `update` actions to the addressed object when it is
registered, and silently ignore everything else. -/
def PluginState.onMessage (p : PluginState) (data : UpdateMessage) :
    PluginState :=
  let p1 := { p with numMessagesIn := p.numMessagesIn + 1 }
  if data.inst = p1.instanceID then p1
  else if data.action = "update" then
    match p1.physicsObjects.find? (fun o => o.objectID == data.obj) with
    | none => p1
    | some _ =>
      { p1 with physicsObjects :=
          (updateFirst data.obj (fun o => o.onRemoteUpdateReceived data)
            p1.physicsObjects) }
  else p1

/-- C10: every inbound message increments the inbound counter, and a
self-originated message, a non-update action, or an unknown object ID
changes nothing beyond that counter — it is silently discarded. -/
theorem onMessage_spec (p : PluginState) (data data2 : UpdateMessage)
    (h : data.inst = p.instanceID ∨ data.action ≠ "update" ∨
      p.physicsObjects.find? (fun o => o.objectID == data.obj) = none) :
    p.onMessage data = { p with numMessagesIn := p.numMessagesIn + 1 } ∧
    (p.onMessage data2).numMessagesIn = p.numMessagesIn + 1 := by
  constructor
  · unfold PluginState.onMessage
    rcases h with h | h | h
    · simp [h]
    · simp [h]
    · simp [h]
  · unfold PluginState.onMessage
    by_cases h1 : data2.inst = p.instanceID
    · simp [h1]
    · by_cases h2 : data2.action = "update"
      · cases hf : List.find? (fun o => o.objectID == data2.obj)
            p.physicsObjects with
        | none => simp [h1, h2, hf]
        | some o => simp [h1, h2, hf]
      · simp [h1, h2]

/-- Concrete plugin state for the C10 witness. -/
def samplePlugin : PluginState :=
  { instanceID := "i:1"
    numMessagesIn := 7
    numMessagesOut := 0
    physicsObjects := [sampleComp] }

/-- A self-originated echo of `sampleMsg`. -/
def selfMsg : UpdateMessage :=
  { sampleMsg with inst := "i:1" }

/-- Witness for C10: a self-echo only bumps the counter, and a processed
remote message also bumps the counter. -/
theorem onMessage_spec_witness :
    samplePlugin.onMessage selfMsg =
      { samplePlugin with numMessagesIn := 8 } ∧
    (samplePlugin.onMessage sampleMsg).numMessagesIn = 8 :=
  onMessage_spec samplePlugin selfMsg sampleMsg (Or.inl rfl)

end RapierPhysics
